import Mathlib

/-!
Shallow embedding of the data model declared in src/app/models.py:
the enumerations, the persistent entities, the non-persistent
Create/Update shapes, and the field constraints declared on them
(max_length, ge, regex, unique, defaults).  Operations performed by
the surrounding layers (creating an entity from a Create shape,
applying an Update shape, status transitions) are modelled explicitly;
every definition that does not correspond to code under src/ carries a
doc comment starting with "Modelled from the spec".

Machine integers are modelled by Int, timestamps by Nat (an abstract
UTC clock value), and Python Decimal values by Rat.
-/

namespace AppModels

/-- Error taxonomy of the validation layer (spec section 7):
length/pattern/bound violations, uniqueness collisions, dangling
foreign keys, and values outside a declared enumeration. -/
inductive ValidationError where
  | fieldValidation (fld : String)
  | uniquenessConstraint (fld : String)
  | referentialIntegrity (fld : String)
  | enumValue (fld : String)
  deriving DecidableEq

/-- FileStatus enumeration from models.py. -/
inductive FileStatus where
  | uploading
  | uploaded
  | processing
  | ready
  | error
  deriving DecidableEq

/-- ChatMessageRole enumeration from models.py. -/
inductive ChatMessageRole where
  | user
  | assistant
  | system
  deriving DecidableEq

/-- SearchStatus enumeration from models.py. -/
inductive SearchStatus where
  | pending
  | in_progress
  | completed
  | failed
  deriving DecidableEq

/-- VideoStatus enumeration from models.py. -/
inductive VideoStatus where
  | uploaded
  | processing
  | ready
  | error
  deriving DecidableEq

/-- VideoEditType enumeration from models.py. -/
inductive VideoEditType where
  | trim
  | merge
  | filter
  | enhance
  | custom
  deriving DecidableEq

/-- The string value of a VideoStatus member, as declared in models.py. -/
def VideoStatus.value : VideoStatus → String
  | VideoStatus.uploaded => "uploaded"
  | VideoStatus.processing => "processing"
  | VideoStatus.ready => "ready"
  | VideoStatus.error => "error"

/-- The string value of a VideoEditType member, as declared in models.py. -/
def VideoEditType.value : VideoEditType → String
  | VideoEditType.trim => "trim"
  | VideoEditType.merge => "merge"
  | VideoEditType.filter => "filter"
  | VideoEditType.enhance => "enhance"
  | VideoEditType.custom => "custom"

/-- Coercion of an external string into the VideoEditType enumeration:
only the declared values are accepted. -/
def VideoEditType.ofString (s : String) : Option VideoEditType :=
  if s = "trim" then some VideoEditType.trim
  else if s = "merge" then some VideoEditType.merge
  else if s = "filter" then some VideoEditType.filter
  else if s = "enhance" then some VideoEditType.enhance
  else if s = "custom" then some VideoEditType.custom
  else none

/-- Arbitrary JSON content carried by the Dict[str, Any] fields. -/
inductive JsonValue where
  | null
  | bool (b : Bool)
  | num (q : Rat)
  | str (s : String)
  | arr (l : List JsonValue)
  | obj (l : List (String × JsonValue))

/-- A JSON object, the shape of the Dict[str, Any] fields of models.py. -/
abbrev JsonDict := List (String × JsonValue)

/-- Characters permitted before the at-sign by the email regex of
models.py line 51: [a-zA-Z0-9_.+-]. -/
def isLocalChar (c : Char) : Bool :=
  c.isAlpha || c.isDigit || c = '_' || c = '.' || c = '+' || c = '-'

/-- Characters permitted in the first domain segment by the email
regex: [a-zA-Z0-9-]. -/
def isDomainChar (c : Char) : Bool :=
  c.isAlpha || c.isDigit || c = '-'

/-- Characters permitted after the first dot of the domain by the
email regex: [a-zA-Z0-9-.]. -/
def isDomainTailChar (c : Char) : Bool :=
  isDomainChar c || c = '.'

/-- Consume a maximal nonempty run of characters satisfying p,
returning the remainder, or none when the first character refuses p. -/
def span1 (p : Char → Bool) : List Char → Option (List Char)
  | [] => none
  | c :: rest => if p c then some (rest.dropWhile p) else none

/-- The anchored email regex of models.py line 51,
[a-zA-Z0-9_.+-]+@[a-zA-Z0-9-]+[.][a-zA-Z0-9-.]+ with both ends
anchored.  Because the at-sign occurs in no character class and the
dot is excluded from the first domain class, greedy maximal-run
parsing coincides with the regex's match semantics. -/
def codeEmailMatch (s : String) : Bool :=
  match span1 isLocalChar s.toList with
  | some ('@' :: rest) =>
    match span1 isDomainChar rest with
    | some ('.' :: tail) => decide (tail ≠ []) && tail.all isDomainTailChar
    | _ => false
  | _ => false

/-- The stricter pattern the specification describes for emails: local
part as in the code, then a domain made of labels each matching
[A-Za-z0-9-]+ separated by dots, with at least two labels.  This
definition follows the spec's words, for comparison with
codeEmailMatch. -/
def specEmailMatch (s : String) : Bool :=
  match span1 isLocalChar s.toList with
  | some ('@' :: rest) =>
    let labels := rest.splitOn '.'
    decide (2 ≤ labels.length) &&
      labels.all (fun lab => decide (lab ≠ []) && lab.all isDomainChar)
  | _ => false

/-- Persistent User entity, models.py lines 46-65.  Relationship
attributes are database views of the foreign keys of the child tables
and carry no own state, so they are not repeated here. -/
structure User where
  id : Option Int := none
  username : String
  email : String
  full_name : String
  is_active : Bool := true
  created_at : Nat
  updated_at : Nat
  storage_quota : Int := 5368709120
  storage_used : Int := 0

/-- UserCreate shape, models.py lines 251-255. -/
structure UserCreate where
  username : String
  email : String
  full_name : String
  storage_quota : Option Int := some 5368709120

/-- UserUpdate shape, models.py lines 258-263: every field optional. -/
structure UserUpdate where
  username : Option String := none
  email : Option String := none
  full_name : Option String := none
  is_active : Option Bool := none
  storage_quota : Option Int := none

/-- Field validation declared on User: username at most 50 characters,
email at most 255 characters and matching the declared regex,
full_name at most 200 characters; no bound is declared on
storage_quota or storage_used. -/
def User.validate (u : User) : Except ValidationError Unit :=
  if 50 < u.username.length then
    Except.error (ValidationError.fieldValidation "username")
  else if 255 < u.email.length then
    Except.error (ValidationError.fieldValidation "email")
  else if codeEmailMatch u.email = false then
    Except.error (ValidationError.fieldValidation "email")
  else if 200 < u.full_name.length then
    Except.error (ValidationError.fieldValidation "full_name")
  else
    Except.ok ()

/-- The User record built from a UserCreate payload at clock value
now, with the declared defaults for every omitted field. -/
def User.build (c : UserCreate) (now : Nat) : User :=
  { username := c.username
    email := c.email
    full_name := c.full_name
    is_active := true
    created_at := now
    updated_at := now
    storage_quota := c.storage_quota.getD 5368709120
    storage_used := 0 }

/-- Creating a User from a UserCreate payload: the built record is
returned when every declared field constraint holds, otherwise the
validation error is raised. -/
def User.fromCreate (c : UserCreate) (now : Nat) : Except ValidationError User :=
  match User.validate (User.build c now) with
  | Except.ok _ => Except.ok (User.build c now)
  | Except.error e => Except.error e

/-- Modelled from the spec: src/ declares the UserUpdate shape but no
code applying it.  Per the spec's partial-update semantics, a set
field overwrites the entity's value, an unset field leaves it
unchanged, and updated_at is stamped with the update's clock value. -/
def User.applyUpdate (u : User) (d : UserUpdate) (now : Nat) : User :=
  { u with
    username := d.username.getD u.username
    email := d.email.getD u.email
    full_name := d.full_name.getD u.full_name
    is_active := d.is_active.getD u.is_active
    storage_quota := d.storage_quota.getD u.storage_quota
    updated_at := now }

/-- Folding a sequence of updates, each with its own clock value, over
a User. -/
def User.applyUpdates (u : User) (l : List (UserUpdate × Nat)) : User :=
  l.foldl (fun a p => User.applyUpdate a p.1 p.2) u

/-- Persistent UploadedFile entity, models.py lines 68-91. -/
structure UploadedFile where
  id : Option Int := none
  filename : String
  original_filename : String
  file_path : String
  file_size : Int
  mime_type : String
  file_hash : String
  status : FileStatus := FileStatus.uploading
  user_id : Int
  created_at : Nat
  updated_at : Nat
  file_metadata : JsonDict := []
  processed_data : JsonDict := []

/-- Field validation declared on UploadedFile: the four string length
bounds, file_size at least zero, and the length bounds on mime_type
and file_hash. -/
def UploadedFile.validate (f : UploadedFile) : Except ValidationError Unit :=
  if 255 < f.filename.length then
    Except.error (ValidationError.fieldValidation "filename")
  else if 255 < f.original_filename.length then
    Except.error (ValidationError.fieldValidation "original_filename")
  else if 500 < f.file_path.length then
    Except.error (ValidationError.fieldValidation "file_path")
  else if f.file_size < 0 then
    Except.error (ValidationError.fieldValidation "file_size")
  else if 100 < f.mime_type.length then
    Except.error (ValidationError.fieldValidation "mime_type")
  else if 64 < f.file_hash.length then
    Except.error (ValidationError.fieldValidation "file_hash")
  else
    Except.ok ()

/-- The UploadedFile record built from the externally supplied field
values at clock value now, with declared defaults for the rest. -/
def UploadedFile.build (fn ofn fp : String) (sz : Int) (mt fh : String)
    (uid : Int) (now : Nat) : UploadedFile :=
  { filename := fn
    original_filename := ofn
    file_path := fp
    file_size := sz
    mime_type := mt
    file_hash := fh
    status := FileStatus.uploading
    user_id := uid
    created_at := now
    updated_at := now }

/-- Constructing an UploadedFile: the built record is returned when
every declared field constraint holds, else the validation error. -/
def UploadedFile.create (fn ofn fp : String) (sz : Int) (mt fh : String)
    (uid : Int) (now : Nat) : Except ValidationError UploadedFile :=
  match UploadedFile.validate (UploadedFile.build fn ofn fp sz mt fh uid now) with
  | Except.ok _ => Except.ok (UploadedFile.build fn ofn fp sz mt fh uid now)
  | Except.error e => Except.error e

/-- Persistent ChatSession entity, models.py lines 94-115. -/
structure ChatSession where
  id : Option Int := none
  title : String := "New Chat"
  user_id : Int
  created_at : Nat
  updated_at : Nat
  is_active : Bool := true
  ai_model : String := "gpt-3.5-turbo"
  system_prompt : String := ""
  temperature : Rat := 7 / 10
  max_tokens : Int := 2048
  settings : JsonDict := []

/-- ChatSessionCreate shape, models.py lines 272-277. -/
structure ChatSessionCreate where
  title : Option String := some "New Chat"
  ai_model : Option String := some "gpt-3.5-turbo"
  system_prompt : Option String := some ""
  temperature : Option Rat := some (7 / 10)
  max_tokens : Option Int := some 2048

/-- ChatSessionUpdate shape, models.py lines 280-286. -/
structure ChatSessionUpdate where
  title : Option String := none
  ai_model : Option String := none
  system_prompt : Option String := none
  temperature : Option Rat := none
  max_tokens : Option Int := none
  is_active : Option Bool := none

/-- Field validation declared on ChatSession: the three string length
bounds; no bound is declared on temperature or max_tokens. -/
def ChatSession.validate (s : ChatSession) : Except ValidationError Unit :=
  if 200 < s.title.length then
    Except.error (ValidationError.fieldValidation "title")
  else if 100 < s.ai_model.length then
    Except.error (ValidationError.fieldValidation "ai_model")
  else if 2000 < s.system_prompt.length then
    Except.error (ValidationError.fieldValidation "system_prompt")
  else
    Except.ok ()

/-- The ChatSession record built from a ChatSessionCreate payload,
with declared defaults for every omitted field. -/
def ChatSession.build (c : ChatSessionCreate) (uid : Int) (now : Nat) : ChatSession :=
  { title := c.title.getD "New Chat"
    user_id := uid
    created_at := now
    updated_at := now
    is_active := true
    ai_model := c.ai_model.getD "gpt-3.5-turbo"
    system_prompt := c.system_prompt.getD ""
    temperature := c.temperature.getD (7 / 10)
    max_tokens := c.max_tokens.getD 2048 }

/-- Creating a ChatSession from a ChatSessionCreate payload. -/
def ChatSession.fromCreate (c : ChatSessionCreate) (uid : Int) (now : Nat) :
    Except ValidationError ChatSession :=
  match ChatSession.validate (ChatSession.build c uid now) with
  | Except.ok _ => Except.ok (ChatSession.build c uid now)
  | Except.error e => Except.error e

/-- Modelled from the spec: src/ declares the ChatSessionUpdate shape
but no code applying it.  Set fields overwrite, unset fields leave the
existing values unchanged, and updated_at is stamped. -/
def ChatSession.applyUpdate (s : ChatSession) (d : ChatSessionUpdate) (now : Nat) : ChatSession :=
  { s with
    title := d.title.getD s.title
    ai_model := d.ai_model.getD s.ai_model
    system_prompt := d.system_prompt.getD s.system_prompt
    temperature := d.temperature.getD s.temperature
    max_tokens := d.max_tokens.getD s.max_tokens
    is_active := d.is_active.getD s.is_active
    updated_at := now }

/-- Folding a sequence of updates over a ChatSession. -/
def ChatSession.applyUpdates (s : ChatSession) (l : List (ChatSessionUpdate × Nat)) : ChatSession :=
  l.foldl (fun a p => ChatSession.applyUpdate a p.1 p.2) s

/-- True when an optional integer is absent or at least zero, the
condition declared by ge=0 on an Optional[int] field. -/
def optNonneg (v : Option Int) : Bool :=
  match v with
  | some n => decide (0 ≤ n)
  | none => true

/-- Persistent ChatMessage entity, models.py lines 118-136.  It has a
created_at timestamp but no updated_at and no Update shape. -/
structure ChatMessage where
  id : Option Int := none
  session_id : Int
  role : ChatMessageRole
  content : String
  created_at : Nat
  input_tokens : Option Int := none
  output_tokens : Option Int := none
  message_metadata : JsonDict := []

/-- Field validation declared on ChatMessage: content at most 10000
characters, and both optional token counts at least zero. -/
def ChatMessage.validate (m : ChatMessage) : Except ValidationError Unit :=
  if 10000 < m.content.length then
    Except.error (ValidationError.fieldValidation "content")
  else if optNonneg m.input_tokens = false then
    Except.error (ValidationError.fieldValidation "input_tokens")
  else if optNonneg m.output_tokens = false then
    Except.error (ValidationError.fieldValidation "output_tokens")
  else
    Except.ok ()

/-- The ChatMessage record built from the externally supplied fields. -/
def ChatMessage.build (sid : Int) (role : ChatMessageRole) (content : String)
    (itok otok : Option Int) (now : Nat) : ChatMessage :=
  { session_id := sid
    role := role
    content := content
    created_at := now
    input_tokens := itok
    output_tokens := otok }

/-- Constructing a ChatMessage: the built record when every declared
field constraint holds, else the validation error. -/
def ChatMessage.create (sid : Int) (role : ChatMessageRole) (content : String)
    (itok otok : Option Int) (now : Nat) : Except ValidationError ChatMessage :=
  match ChatMessage.validate (ChatMessage.build sid role content itok otok now) with
  | Except.ok _ => Except.ok (ChatMessage.build sid role content itok otok now)
  | Except.error e => Except.error e

/-- Persistent SearchQuery entity, models.py lines 152-177. -/
structure SearchQuery where
  id : Option Int := none
  user_id : Int
  query : String
  status : SearchStatus := SearchStatus.pending
  created_at : Nat
  updated_at : Nat
  completed_at : Option Nat := none
  search_engines : List String := ["google"]
  max_results : Int := 10
  language : String := "en"
  region : String := "us"
  results : JsonDict := []
  results_count : Int := 0
  error_message : Option String := none

/-- SearchQueryCreate shape, models.py lines 295-300. -/
structure SearchQueryCreate where
  query : String
  search_engines : Option (List String) := some ["google"]
  max_results : Option Int := some 10
  language : Option String := some "en"
  region : Option String := some "us"

/-- True when an optional string is absent or within the given length
bound, the condition declared by max_length on an Optional[str] field. -/
def optLenLe (bound : Nat) (v : Option String) : Bool :=
  match v with
  | some s => decide (s.length ≤ bound)
  | none => true

/-- Field validation declared on SearchQuery: string length bounds on
query, language, region and error_message, and results_count at least
zero; no bound is declared on max_results. -/
def SearchQuery.validate (q : SearchQuery) : Except ValidationError Unit :=
  if 1000 < q.query.length then
    Except.error (ValidationError.fieldValidation "query")
  else if 10 < q.language.length then
    Except.error (ValidationError.fieldValidation "language")
  else if 10 < q.region.length then
    Except.error (ValidationError.fieldValidation "region")
  else if q.results_count < 0 then
    Except.error (ValidationError.fieldValidation "results_count")
  else if optLenLe 1000 q.error_message = false then
    Except.error (ValidationError.fieldValidation "error_message")
  else
    Except.ok ()

/-- The SearchQuery record built from a SearchQueryCreate payload,
with declared defaults for every omitted field. -/
def SearchQuery.build (c : SearchQueryCreate) (uid : Int) (now : Nat) : SearchQuery :=
  { user_id := uid
    query := c.query
    status := SearchStatus.pending
    created_at := now
    updated_at := now
    completed_at := none
    search_engines := c.search_engines.getD ["google"]
    max_results := c.max_results.getD 10
    language := c.language.getD "en"
    region := c.region.getD "us" }

/-- Creating a SearchQuery from a SearchQueryCreate payload. -/
def SearchQuery.fromCreate (c : SearchQueryCreate) (uid : Int) (now : Nat) :
    Except ValidationError SearchQuery :=
  match SearchQuery.validate (SearchQuery.build c uid now) with
  | Except.ok _ => Except.ok (SearchQuery.build c uid now)
  | Except.error e => Except.error e

/-- A SearchStatus is terminal when it is completed or failed. -/
def SearchStatus.isTerminal (s : SearchStatus) : Bool :=
  s = SearchStatus.completed || s = SearchStatus.failed

/-- Modelled from the spec: src/ declares no update code for
SearchQuery; the external search backend moves its status.  Per the
spec, completed_at is set exactly when the new status is terminal
(completed or failed) and cleared otherwise, and updated_at is
stamped. -/
def SearchQuery.setStatus (q : SearchQuery) (s : SearchStatus) (now : Nat) : SearchQuery :=
  { q with
    status := s
    completed_at := if s.isTerminal then some now else none
    updated_at := now }

/-- Persistent VideoProject entity, models.py lines 180-196. -/
structure VideoProject where
  id : Option Int := none
  user_id : Int
  title : String
  description : String := ""
  created_at : Nat
  updated_at : Nat
  settings : JsonDict := []

/-- VideoProjectCreate shape, models.py lines 303-305. -/
structure VideoProjectCreate where
  title : String
  description : Option String := some ""

/-- Field validation declared on VideoProject: title at most 200
characters and description at most 1000. -/
def VideoProject.validate (p : VideoProject) : Except ValidationError Unit :=
  if 200 < p.title.length then
    Except.error (ValidationError.fieldValidation "title")
  else if 1000 < p.description.length then
    Except.error (ValidationError.fieldValidation "description")
  else
    Except.ok ()

/-- The VideoProject record built from a VideoProjectCreate payload. -/
def VideoProject.build (c : VideoProjectCreate) (uid : Int) (now : Nat) : VideoProject :=
  { user_id := uid
    title := c.title
    description := c.description.getD ""
    created_at := now
    updated_at := now }

/-- Creating a VideoProject from a VideoProjectCreate payload. -/
def VideoProject.fromCreate (c : VideoProjectCreate) (uid : Int) (now : Nat) :
    Except ValidationError VideoProject :=
  match VideoProject.validate (VideoProject.build c uid now) with
  | Except.ok _ => Except.ok (VideoProject.build c uid now)
  | Except.error e => Except.error e

/-- Persistent VideoEditTask entity, models.py lines 223-247.  Its
status field ranges over VideoStatus, the same enumeration VideoFile
uses, not a task-specific one. -/
structure VideoEditTask where
  id : Option Int := none
  project_id : Int
  edit_type : VideoEditType
  status : VideoStatus := VideoStatus.uploaded
  user_prompt : String
  created_at : Nat
  updated_at : Nat
  completed_at : Option Nat := none
  edit_parameters : JsonDict := []
  output_file_path : Option String := none
  processing_log : String := ""
  error_message : Option String := none
  progress_percentage : Rat := 0

/-- VideoEditTaskCreate shape, models.py lines 313-315. -/
structure VideoEditTaskCreate where
  edit_type : VideoEditType
  user_prompt : String

/-- VideoEditTaskUpdate shape, models.py lines 318-324. -/
structure VideoEditTaskUpdate where
  status : Option VideoStatus := none
  edit_parameters : Option JsonDict := none
  output_file_path : Option String := none
  processing_log : Option String := none
  error_message : Option String := none
  progress_percentage : Option Rat := none

/-- Field validation declared on VideoEditTask: string length bounds
on user_prompt, output_file_path, processing_log and error_message; no
bound is declared on progress_percentage. -/
def VideoEditTask.validate (t : VideoEditTask) : Except ValidationError Unit :=
  if 2000 < t.user_prompt.length then
    Except.error (ValidationError.fieldValidation "user_prompt")
  else if optLenLe 500 t.output_file_path = false then
    Except.error (ValidationError.fieldValidation "output_file_path")
  else if 5000 < t.processing_log.length then
    Except.error (ValidationError.fieldValidation "processing_log")
  else if optLenLe 1000 t.error_message = false then
    Except.error (ValidationError.fieldValidation "error_message")
  else
    Except.ok ()

/-- The VideoEditTask record built from a VideoEditTaskCreate payload,
with declared defaults for every other field. -/
def VideoEditTask.build (c : VideoEditTaskCreate) (pid : Int) (now : Nat) : VideoEditTask :=
  { project_id := pid
    edit_type := c.edit_type
    status := VideoStatus.uploaded
    user_prompt := c.user_prompt
    created_at := now
    updated_at := now
    completed_at := none
    progress_percentage := 0 }

/-- Creating a VideoEditTask from a VideoEditTaskCreate payload. -/
def VideoEditTask.fromCreate (c : VideoEditTaskCreate) (pid : Int) (now : Nat) :
    Except ValidationError VideoEditTask :=
  match VideoEditTask.validate (VideoEditTask.build c pid now) with
  | Except.ok _ => Except.ok (VideoEditTask.build c pid now)
  | Except.error e => Except.error e

/-- Coercion of an external payload with a string edit_type into the
VideoEditTaskCreate shape: a string outside the declared enumeration
values is rejected with an enum-value error, then the declared length
bound on user_prompt is checked. -/
def VideoEditTaskCreate.parse (et ps : String) : Except ValidationError VideoEditTaskCreate :=
  match VideoEditType.ofString et with
  | none => Except.error (ValidationError.enumValue "edit_type")
  | some t =>
    if 2000 < ps.length then
      Except.error (ValidationError.fieldValidation "user_prompt")
    else
      Except.ok { edit_type := t, user_prompt := ps }

/-- A VideoStatus is terminal when it is ready or error. -/
def VideoStatus.isTerminal (s : VideoStatus) : Bool :=
  s = VideoStatus.ready || s = VideoStatus.error

/-- Overwrite-if-set semantics for a nullable entity field driven by
an optional update field: an unset update field keeps the old value. -/
def setOpt (new : Option α) (old : Option α) : Option α :=
  match new with
  | some x => some x
  | none => old

/-- Modelled from the spec: src/ declares the VideoEditTaskUpdate
shape but no code applying it.  Set fields overwrite, unset fields
leave the existing values unchanged, updated_at is stamped, and the
external layer maintains the spec invariant that completed_at is set
exactly on a transition into a terminal status: when the update sets
the status, completed_at becomes the clock value on a terminal status
and is cleared on a non-terminal one; when the update leaves the
status unset, completed_at is untouched. -/
def VideoEditTask.applyUpdate (t : VideoEditTask) (d : VideoEditTaskUpdate) (now : Nat) :
    VideoEditTask :=
  { t with
    status := d.status.getD t.status
    edit_parameters := d.edit_parameters.getD t.edit_parameters
    output_file_path := setOpt d.output_file_path t.output_file_path
    processing_log := d.processing_log.getD t.processing_log
    error_message := setOpt d.error_message t.error_message
    progress_percentage := d.progress_percentage.getD t.progress_percentage
    completed_at :=
      match d.status with
      | some s => if s.isTerminal then some now else none
      | none => t.completed_at
    updated_at := now }

/-- Folding a sequence of updates over a VideoEditTask. -/
def VideoEditTask.applyUpdates (t : VideoEditTask) (l : List (VideoEditTaskUpdate × Nat)) :
    VideoEditTask :=
  l.foldl (fun a p => VideoEditTask.applyUpdate a p.1 p.2) t

/-- Modelled from the spec: the relational store of Users, the only
state the uniqueness constraints of models.py lines 50-51 range over. -/
structure Store where
  users : List User

/-- Modelled from the spec: creating a User against the store.  A
username or email collision (case-sensitive exact match) fails with a
uniqueness-constraint error naming the field; otherwise the payload is
validated and the new User appended. -/
def Store.createUser (st : Store) (c : UserCreate) (now : Nat) :
    Except ValidationError (User × Store) :=
  if st.users.any (fun u => u.email = c.email) then
    Except.error (ValidationError.uniquenessConstraint "email")
  else if st.users.any (fun u => u.username = c.username) then
    Except.error (ValidationError.uniquenessConstraint "username")
  else
    match User.fromCreate c now with
    | Except.ok u => Except.ok (u, Store.mk (st.users ++ [u]))
    | Except.error e => Except.error e

/-- The store state after an attempted User creation: unchanged when
the creation failed. -/
def Store.afterCreateUser (st : Store) (c : UserCreate) (now : Nat) : Store :=
  match st.createUser c now with
  | Except.ok p => p.2
  | Except.error _ => st

/-- The SearchQuery states reachable through this layer: created from
a payload, then driven by status transitions. -/
inductive SearchQuery.Reachable : SearchQuery → Prop where
  | base (c : SearchQueryCreate) (uid : Int) (now : Nat) (q : SearchQuery) :
      SearchQuery.fromCreate c uid now = Except.ok q → SearchQuery.Reachable q
  | step (q : SearchQuery) (s : SearchStatus) (now : Nat) :
      SearchQuery.Reachable q → SearchQuery.Reachable (SearchQuery.setStatus q s now)

/-- The VideoEditTask states reachable through this layer: created
from a payload, then driven by VideoEditTaskUpdate applications. -/
inductive VideoEditTask.Reachable : VideoEditTask → Prop where
  | base (c : VideoEditTaskCreate) (pid : Int) (now : Nat) (t : VideoEditTask) :
      VideoEditTask.fromCreate c pid now = Except.ok t → VideoEditTask.Reachable t
  | step (t : VideoEditTask) (d : VideoEditTaskUpdate) (now : Nat) :
      VideoEditTask.Reachable t → VideoEditTask.Reachable (VideoEditTask.applyUpdate t d now)

/-- A string of n copies of the letter a, for the length-boundary
checks. -/
def repChar (n : Nat) : String :=
  String.mk (List.replicate n 'a')

/-- A concrete valid User, the result of building the spec's
alice payload at clock value 0. -/
def sampleUser : User :=
  User.build { username := "alice", email := "alice@example.com", full_name := "Alice A" } 0

/-- A concrete UserUpdate setting only the full name. -/
def sampleUserUpdate : UserUpdate :=
  { full_name := some "Alice B" }

/-- A concrete valid SearchQuery, built from a minimal payload. -/
def sampleSearchQuery : SearchQuery :=
  SearchQuery.build { query := "cats" } 1 0

/-- A concrete valid VideoEditTask, built from a trim payload. -/
def sampleTask : VideoEditTask :=
  VideoEditTask.build { edit_type := VideoEditType.trim, user_prompt := "cut" } 1 0

/-- A concrete VideoEditTaskUpdate setting only the progress. -/
def sampleTaskUpdate : VideoEditTaskUpdate :=
  { progress_percentage := some (55 / 100) }

/-- A concrete ChatSession built from the all-defaults payload. -/
def sampleSession : ChatSession :=
  ChatSession.build {} 1 0

/-- A concrete ChatSessionUpdate setting only the title. -/
def sampleSessionUpdate : ChatSessionUpdate :=
  { title := some "Renamed" }

/-- The length of the repeated-letter string is its repetition count. -/
theorem repChar_length (n : Nat) : (repChar n).length = n := by
  unfold repChar
  show (List.replicate n 'a').length = n
  simp

/-- A User creation succeeds exactly when the built record passes
field validation. -/
theorem User.fromCreate_ok_iff (c : UserCreate) (now : Nat) :
    (∃ u, User.fromCreate c now = Except.ok u) ↔
      User.validate (User.build c now) = Except.ok () := by
  unfold User.fromCreate
  cases hv : User.validate (User.build c now) with
  | ok u => simp
  | error e => simp

/-- User field validation succeeds exactly when the four declared
constraints hold. -/
theorem User.validate_ok_iff (u : User) :
    User.validate u = Except.ok () ↔
      (u.username.length ≤ 50 ∧ u.email.length ≤ 255 ∧
       codeEmailMatch u.email = true ∧ u.full_name.length ≤ 200) := by
  unfold User.validate
  split_ifs with h1 h2 h3 h4 <;> simp_all

end AppModels

namespace AppModels

/-- Claim C1: constructing an UploadedFile with file_size 0 succeeds,
with file_size -1 fails with a field-validation error naming
file_size; constructing a ChatMessage whose content has exactly 10000
characters succeeds, and one with 10001 characters fails with a
field-validation error naming content. -/
theorem c1_boundary_validation :
    (∃ f, UploadedFile.create "f.mp4" "f.mp4" "/data/f.mp4" 0 "video/mp4" "deadbeef" 1 0 =
        Except.ok f ∧ f.file_size = 0) ∧
    UploadedFile.create "f.mp4" "f.mp4" "/data/f.mp4" (-1) "video/mp4" "deadbeef" 1 0 =
        Except.error (ValidationError.fieldValidation "file_size") ∧
    (∃ m, ChatMessage.create 1 ChatMessageRole.user (repChar 10000) none none 0 =
        Except.ok m ∧ m.content = repChar 10000) ∧
    ChatMessage.create 1 ChatMessageRole.user (repChar 10001) none none 0 =
        Except.error (ValidationError.fieldValidation "content") := by
  have h10000 : ¬ (10000 < (repChar 10000).length) := by
    rw [repChar_length]
    omega
  have h10001 : 10000 < (repChar 10001).length := by
    rw [repChar_length]
    omega
  have hok : ChatMessage.create 1 ChatMessageRole.user (repChar 10000) none none 0 =
      Except.ok (ChatMessage.build 1 ChatMessageRole.user (repChar 10000) none none 0) := by
    unfold ChatMessage.create ChatMessage.validate
    simp [ChatMessage.build, h10000, optNonneg]
  have herr : ChatMessage.create 1 ChatMessageRole.user (repChar 10001) none none 0 =
      Except.error (ValidationError.fieldValidation "content") := by
    unfold ChatMessage.create ChatMessage.validate
    simp [ChatMessage.build, h10001]
  exact ⟨⟨_, rfl, rfl⟩, rfl, ⟨_, hok, rfl⟩, herr⟩

/-- Claim C2: a Create payload with omitted defaulted fields yields an
entity carrying the declared defaults: the alice User gets
storage_quota 5368709120, storage_used 0 and is_active true; an
all-defaults ChatSession gets title "New Chat", ai_model
"gpt-3.5-turbo", empty system prompt, temperature 0.7, max_tokens 2048
and is_active true; a minimal SearchQuery gets search_engines
["google"], max_results 10, language "en", region "us", pending status,
results_count 0 and no completed_at; a minimal VideoProject gets an
empty description. -/
theorem c2_create_defaults (now : Nat) (uid : Int) :
    (∃ u, User.fromCreate
        { username := "alice", email := "alice@example.com", full_name := "Alice A" } now =
          Except.ok u ∧
        u.storage_quota = 5368709120 ∧ u.storage_used = 0 ∧ u.is_active = true) ∧
    (∃ s, ChatSession.fromCreate {} uid now = Except.ok s ∧
        s.title = "New Chat" ∧ s.ai_model = "gpt-3.5-turbo" ∧ s.system_prompt = "" ∧
        s.temperature = 7 / 10 ∧ s.max_tokens = 2048 ∧ s.is_active = true) ∧
    (∃ q, SearchQuery.fromCreate { query := "cats" } uid now = Except.ok q ∧
        q.search_engines = ["google"] ∧ q.max_results = 10 ∧ q.language = "en" ∧
        q.region = "us" ∧ q.status = SearchStatus.pending ∧ q.results_count = 0 ∧
        q.completed_at = none) ∧
    (∃ p, VideoProject.fromCreate { title := "Trip" } uid now = Except.ok p ∧
        p.description = "") := by
  exact ⟨⟨_, rfl, rfl, rfl, rfl⟩,
         ⟨_, rfl, rfl, rfl, rfl, rfl, rfl, rfl⟩,
         ⟨_, rfl, rfl, rfl, rfl, rfl, rfl, rfl, rfl⟩,
         ⟨_, rfl, rfl⟩⟩

/-- Claim C4: the string coercion into VideoEditType accepts exactly
the five declared values; every other string is rejected with an
enum-value error; in particular a VideoEditTaskCreate with edit_type
"trim" succeeds and one with edit_type "rotate" fails. -/
theorem c4_enum_values :
    (∀ s : String, (∃ c, VideoEditTaskCreate.parse s "cut" = Except.ok c) ↔
        (s = "trim" ∨ s = "merge" ∨ s = "filter" ∨ s = "enhance" ∨ s = "custom")) ∧
    (∀ s : String, (∃ c, VideoEditTaskCreate.parse s "cut" = Except.ok c) ∨
        VideoEditTaskCreate.parse s "cut" = Except.error (ValidationError.enumValue "edit_type")) ∧
    (∃ c, VideoEditTaskCreate.parse "trim" "cut" = Except.ok c ∧
        c.edit_type = VideoEditType.trim) ∧
    VideoEditTaskCreate.parse "rotate" "cut" = Except.error (ValidationError.enumValue "edit_type") := by
  have hcut : ¬ (2000 < ("cut" : String).length) := by decide
  refine ⟨?_, ?_, ⟨_, rfl, rfl⟩, rfl⟩
  · intro s
    unfold VideoEditTaskCreate.parse VideoEditType.ofString
    split_ifs with h1 h2 h3 h4 h5 <;> simp_all [hcut]
  · intro s
    unfold VideoEditTaskCreate.parse VideoEditType.ofString
    split_ifs with h1 h2 h3 h4 h5 <;> simp [hcut]

/-- Claim C9: the status of a VideoEditTask ranges over the four
VideoStatus values uploaded, processing, ready and error; the string
values completed and failed are not values of this enumeration; and a
freshly built VideoEditTask has status uploaded. -/
theorem c9_status_enum :
    (∀ s : VideoStatus, s.value = "uploaded" ∨ s.value = "processing" ∨
        s.value = "ready" ∨ s.value = "error") ∧
    (∀ s : VideoStatus, s.value ≠ "completed" ∧ s.value ≠ "failed") ∧
    (∀ (c : VideoEditTaskCreate) (pid : Int) (now : Nat),
        (VideoEditTask.build c pid now).status = VideoStatus.uploaded) := by
  refine ⟨?_, ?_, ?_⟩
  · intro s
    cases s <;> simp [VideoStatus.value]
  · intro s
    cases s <;> exact ⟨by decide, by decide⟩
  · intro c pid now
    rfl

/-- Claim C10: no bound is declared on User.storage_quota or
storage_used, SearchQuery.max_results, ChatSession.max_tokens, or
VideoEditTask.progress_percentage: construction and update with any
integer or rational value, negative or above 100 included, succeed and
store that exact value. -/
theorem c10_unbounded_numeric_fields (n m k j : Int) (q : Rat) :
    (∃ u, User.fromCreate
        { username := "alice", email := "alice@example.com", full_name := "Alice A",
          storage_quota := some n } 0 = Except.ok u ∧ u.storage_quota = n) ∧
    User.validate { sampleUser with storage_quota := n, storage_used := m } = Except.ok () ∧
    (∃ s, ChatSession.fromCreate { max_tokens := some k } 1 0 = Except.ok s ∧
        s.max_tokens = k) ∧
    (∃ r, SearchQuery.fromCreate { query := "cats", max_results := some j } 1 0 =
        Except.ok r ∧ r.max_results = j) ∧
    (VideoEditTask.applyUpdate sampleTask { progress_percentage := some q } 5).progress_percentage = q ∧
    VideoEditTask.validate { sampleTask with progress_percentage := q } = Except.ok () := by
  exact ⟨⟨_, rfl, rfl⟩, rfl, ⟨_, rfl, rfl⟩, ⟨_, rfl, rfl⟩, rfl, rfl⟩

/-- Claim C3 counterexample: the string a@b..c is accepted as the
email of a User (the code regex lets the part after the first dot
contain further dots anywhere), but its domain has an empty middle
label, so it does not match the pattern the claim describes. -/
theorem c3_email_counterexample :
    (∃ u, User.fromCreate { username := "a", email := "a@b..c", full_name := "A" } 0 =
        Except.ok u) ∧
    specEmailMatch "a@b..c" = false :=
  ⟨⟨_, rfl⟩, by decide⟩

/-- Claim C3 (amended): a string is accepted as the email of a User
exactly when it has at most 255 characters and matches the declared
regex: one or more characters from [A-Za-z0-9_.+-], then the at-sign,
then one or more characters from [A-Za-z0-9-], then a dot, then one or
more characters from [A-Za-z0-9-.]; domain labels after the first may
be empty, since dots may appear anywhere after the first dot. -/
theorem c3_email_amended (e : String) :
    (∃ u, User.fromCreate { username := "a", email := e, full_name := "A" } 0 = Except.ok u)
      ↔ (e.length ≤ 255 ∧ codeEmailMatch e = true) := by
  rw [User.fromCreate_ok_iff, User.validate_ok_iff]
  have h1 : ("a" : String).length ≤ 50 := by decide
  have h2 : ("A" : String).length ≤ 200 := by decide
  simp [User.build, h1, h2]

/-- Claim C5: creating a User whose email already occurs in the store
(case-sensitive exact match) fails with a uniqueness-constraint error
naming email and leaves the store unchanged, and likewise a username
collision fails with a uniqueness-constraint error and leaves the
store unchanged. -/
theorem c5_unique_users (st : Store) (c : UserCreate) (now : Nat) :
    ((∃ u, u ∈ st.users ∧ u.email = c.email) →
        st.createUser c now = Except.error (ValidationError.uniquenessConstraint "email") ∧
        st.afterCreateUser c now = st) ∧
    ((∃ u, u ∈ st.users ∧ u.username = c.username) →
        (∃ fld, st.createUser c now = Except.error (ValidationError.uniquenessConstraint fld)) ∧
        st.afterCreateUser c now = st) := by
  constructor
  · rintro ⟨u, hu, he⟩
    have hany : st.users.any (fun v => v.email = c.email) = true := by
      simp only [List.any_eq_true, decide_eq_true_eq]
      exact ⟨u, hu, he⟩
    constructor
    · unfold Store.createUser
      simp [hany]
    · unfold Store.afterCreateUser Store.createUser
      simp [hany]
  · rintro ⟨u, hu, hn⟩
    have hanyn : st.users.any (fun v => v.username = c.username) = true := by
      simp only [List.any_eq_true, decide_eq_true_eq]
      exact ⟨u, hu, hn⟩
    cases he : st.users.any (fun v => v.email = c.email) with
    | true =>
      refine ⟨⟨"email", ?_⟩, ?_⟩
      · unfold Store.createUser
        simp [he]
      · unfold Store.afterCreateUser Store.createUser
        simp [he]
    | false =>
      refine ⟨⟨"username", ?_⟩, ?_⟩
      · unfold Store.createUser
        simp [he, hanyn]
      · unfold Store.afterCreateUser Store.createUser
        simp [he, hanyn]

/-- Witness for C5: in a store holding the alice User, creating a
second User with alice's email fails with the uniqueness error and
leaves the store as it was. -/
theorem c5_unique_users_witness :
    (Store.mk [sampleUser]).createUser
        { username := "bob", email := "alice@example.com", full_name := "B" } 3 =
      Except.error (ValidationError.uniquenessConstraint "email") ∧
    (Store.mk [sampleUser]).afterCreateUser
        { username := "bob", email := "alice@example.com", full_name := "B" } 3 =
      Store.mk [sampleUser] :=
  (c5_unique_users (Store.mk [sampleUser])
      { username := "bob", email := "alice@example.com", full_name := "B" } 3).1
    ⟨sampleUser, by simp, rfl⟩

/-- A fold of User updates never touches created_at. -/
theorem userUpdates_created_at (u : User) (l : List (UserUpdate × Nat)) :
    (User.applyUpdates u l).created_at = u.created_at := by
  induction l generalizing u with
  | nil => rfl
  | cons p l ih =>
    show (User.applyUpdates (User.applyUpdate u p.1 p.2) l).created_at = u.created_at
    rw [ih]
    rfl

/-- A fold of ChatSession updates never touches created_at. -/
theorem sessionUpdates_created_at (s : ChatSession) (l : List (ChatSessionUpdate × Nat)) :
    (ChatSession.applyUpdates s l).created_at = s.created_at := by
  induction l generalizing s with
  | nil => rfl
  | cons p l ih =>
    show (ChatSession.applyUpdates (ChatSession.applyUpdate s p.1 p.2) l).created_at = s.created_at
    rw [ih]
    rfl

/-- A fold of VideoEditTask updates never touches created_at. -/
theorem taskUpdates_created_at (t : VideoEditTask)
    (l : List (VideoEditTaskUpdate × Nat)) :
    (VideoEditTask.applyUpdates t l).created_at = t.created_at := by
  induction l generalizing t with
  | nil => rfl
  | cons p l ih =>
    show (VideoEditTask.applyUpdates (VideoEditTask.applyUpdate t p.1 p.2) l).created_at =
      t.created_at
    rw [ih]
    rfl

/-- Claim C6: over any sequence of updates, created_at keeps the value
set at creation, and a single update stamped with a clock value
different from the current updated_at changes updated_at; shown for
User, ChatSession and VideoEditTask, the entities with Update shapes. -/
theorem c6_timestamp_discipline :
    (∀ (u : User) (l : List (UserUpdate × Nat)),
        (User.applyUpdates u l).created_at = u.created_at) ∧
    (∀ (u : User) (d : UserUpdate) (t : Nat), t ≠ u.updated_at →
        (User.applyUpdate u d t).updated_at ≠ u.updated_at) ∧
    (∀ (s : ChatSession) (l : List (ChatSessionUpdate × Nat)),
        (ChatSession.applyUpdates s l).created_at = s.created_at) ∧
    (∀ (s : ChatSession) (d : ChatSessionUpdate) (t : Nat), t ≠ s.updated_at →
        (ChatSession.applyUpdate s d t).updated_at ≠ s.updated_at) ∧
    (∀ (v : VideoEditTask) (l : List (VideoEditTaskUpdate × Nat)),
        (VideoEditTask.applyUpdates v l).created_at = v.created_at) ∧
    (∀ (v : VideoEditTask) (d : VideoEditTaskUpdate) (t : Nat), t ≠ v.updated_at →
        (VideoEditTask.applyUpdate v d t).updated_at ≠ v.updated_at) := by
  refine ⟨userUpdates_created_at, ?_, sessionUpdates_created_at, ?_,
    taskUpdates_created_at, ?_⟩
  · intro u d t h
    exact h
  · intro s d t h
    exact h
  · intro v d t h
    exact h

/-- Witness for C6: updating each sample entity at clock value 5
changes its updated_at away from the creation value 0. -/
theorem c6_timestamp_discipline_witness :
    (User.applyUpdate sampleUser sampleUserUpdate 5).updated_at ≠ sampleUser.updated_at ∧
    (ChatSession.applyUpdate sampleSession sampleSessionUpdate 5).updated_at ≠
      sampleSession.updated_at ∧
    (VideoEditTask.applyUpdate sampleTask sampleTaskUpdate 5).updated_at ≠
      sampleTask.updated_at :=
  ⟨c6_timestamp_discipline.2.1 sampleUser sampleUserUpdate 5 (by decide),
   c6_timestamp_discipline.2.2.2.1 sampleSession sampleSessionUpdate 5 (by decide),
   c6_timestamp_discipline.2.2.2.2.2 sampleTask sampleTaskUpdate 5 (by decide)⟩

/-- Claim C7: applying an Update shape changes only the fields the
shape sets: every unset field leaves the entity's value unchanged, and
the shapes carry no identity and no relationship fields, so id,
created_at and the foreign keys are never altered; shown for
UserUpdate and VideoEditTaskUpdate. -/
theorem c7_partial_update :
    (∀ (u : User) (d : UserUpdate) (t : Nat),
      (d.username = none → (User.applyUpdate u d t).username = u.username) ∧
      (d.email = none → (User.applyUpdate u d t).email = u.email) ∧
      (d.full_name = none → (User.applyUpdate u d t).full_name = u.full_name) ∧
      (d.is_active = none → (User.applyUpdate u d t).is_active = u.is_active) ∧
      (d.storage_quota = none → (User.applyUpdate u d t).storage_quota = u.storage_quota) ∧
      (User.applyUpdate u d t).id = u.id ∧
      (User.applyUpdate u d t).created_at = u.created_at ∧
      (User.applyUpdate u d t).storage_used = u.storage_used) ∧
    (∀ (v : VideoEditTask) (d : VideoEditTaskUpdate) (t : Nat),
      (d.status = none → (VideoEditTask.applyUpdate v d t).status = v.status ∧
          (VideoEditTask.applyUpdate v d t).completed_at = v.completed_at) ∧
      (d.edit_parameters = none →
          (VideoEditTask.applyUpdate v d t).edit_parameters = v.edit_parameters) ∧
      (d.output_file_path = none →
          (VideoEditTask.applyUpdate v d t).output_file_path = v.output_file_path) ∧
      (d.processing_log = none →
          (VideoEditTask.applyUpdate v d t).processing_log = v.processing_log) ∧
      (d.error_message = none →
          (VideoEditTask.applyUpdate v d t).error_message = v.error_message) ∧
      (d.progress_percentage = none →
          (VideoEditTask.applyUpdate v d t).progress_percentage = v.progress_percentage) ∧
      (VideoEditTask.applyUpdate v d t).id = v.id ∧
      (VideoEditTask.applyUpdate v d t).project_id = v.project_id ∧
      (VideoEditTask.applyUpdate v d t).edit_type = v.edit_type ∧
      (VideoEditTask.applyUpdate v d t).user_prompt = v.user_prompt ∧
      (VideoEditTask.applyUpdate v d t).created_at = v.created_at) := by
  constructor
  · intro u d t
    refine ⟨?_, ?_, ?_, ?_, ?_, rfl, rfl, rfl⟩ <;>
      (intro h; simp [User.applyUpdate, h])
  · intro v d t
    refine ⟨?_, ?_, ?_, ?_, ?_, ?_, rfl, rfl, rfl, rfl, rfl⟩ <;>
      (intro h; simp [VideoEditTask.applyUpdate, h, setOpt])

/-- Witness for C7: applying the all-unset update to the sample
entities changes none of the shape fields. -/
theorem c7_partial_update_witness :
    (User.applyUpdate sampleUser {} 5).username = sampleUser.username ∧
    (User.applyUpdate sampleUser {} 5).storage_quota = sampleUser.storage_quota ∧
    (VideoEditTask.applyUpdate sampleTask {} 5).status = sampleTask.status ∧
    (VideoEditTask.applyUpdate sampleTask {} 5).progress_percentage =
      sampleTask.progress_percentage :=
  ⟨(c7_partial_update.1 sampleUser {} 5).1 rfl,
   (c7_partial_update.1 sampleUser {} 5).2.2.2.2.1 rfl,
   ((c7_partial_update.2 sampleTask {} 5).1 rfl).1,
   (c7_partial_update.2 sampleTask {} 5).2.2.2.2.2.1 rfl⟩

/-- A SearchQuery creation that succeeds starts with no completed_at. -/
theorem searchQueryCreate_completed_at (c : SearchQueryCreate) (uid : Int) (now : Nat)
    (q : SearchQuery) (h : SearchQuery.fromCreate c uid now = Except.ok q) :
    q.completed_at = none := by
  unfold SearchQuery.fromCreate at h
  split at h
  · cases h
    rfl
  · cases h

/-- A VideoEditTask creation that succeeds starts with no
completed_at. -/
theorem videoTaskCreate_completed_at (c : VideoEditTaskCreate) (pid : Int) (now : Nat)
    (t : VideoEditTask) (h : VideoEditTask.fromCreate c pid now = Except.ok t) :
    t.completed_at = none := by
  unfold VideoEditTask.fromCreate at h
  split at h
  · cases h
    rfl
  · cases h

/-- On every reachable SearchQuery, a set completed_at forces a
terminal status. -/
theorem searchQueryReachable_terminal (q : SearchQuery) (h : SearchQuery.Reachable q) :
    q.completed_at ≠ none →
      q.status = SearchStatus.completed ∨ q.status = SearchStatus.failed := by
  induction h with
  | base c uid now q hq =>
    intro hne
    exact absurd (searchQueryCreate_completed_at c uid now q hq) hne
  | step q s now hr ih =>
    intro hne
    by_cases hterm : s.isTerminal = true
    · show s = SearchStatus.completed ∨ s = SearchStatus.failed
      cases s <;> simp_all [SearchStatus.isTerminal]
    · exfalso
      apply hne
      simp [SearchQuery.setStatus, hterm]

/-- On every reachable VideoEditTask, a set completed_at forces a
terminal status. -/
theorem videoTaskReachable_terminal (t : VideoEditTask)
    (h : VideoEditTask.Reachable t) :
    t.completed_at ≠ none → t.status = VideoStatus.ready ∨ t.status = VideoStatus.error := by
  induction h with
  | base c pid now t ht =>
    intro hne
    exact absurd (videoTaskCreate_completed_at c pid now t ht) hne
  | step t d now hr ih =>
    intro hne
    cases hd : d.status with
    | none =>
      have h1 : (VideoEditTask.applyUpdate t d now).completed_at = t.completed_at := by
        simp [VideoEditTask.applyUpdate, hd]
      have h2 : (VideoEditTask.applyUpdate t d now).status = t.status := by
        simp [VideoEditTask.applyUpdate, hd]
      rw [h1] at hne
      rw [h2]
      exact ih hne
    | some s =>
      have h2 : (VideoEditTask.applyUpdate t d now).status = s := by
        simp [VideoEditTask.applyUpdate, hd]
      by_cases hterm : s.isTerminal = true
      · rw [h2]
        cases s <;> simp_all [VideoStatus.isTerminal]
      · exfalso
        apply hne
        simp [VideoEditTask.applyUpdate, hd, hterm]

/-- Claim C8: on every reachable SearchQuery and VideoEditTask,
completed_at is non-null only in a terminal status (completed or
failed for SearchQuery, ready or error for the VideoStatus enumeration
VideoEditTask uses); in every non-terminal status completed_at is
null, and it is null at creation. -/
theorem c8_completed_at_terminal :
    (∀ q : SearchQuery, SearchQuery.Reachable q →
      (q.completed_at ≠ none →
          q.status = SearchStatus.completed ∨ q.status = SearchStatus.failed) ∧
      (q.status ≠ SearchStatus.completed ∧ q.status ≠ SearchStatus.failed →
          q.completed_at = none)) ∧
    (∀ (c : SearchQueryCreate) (uid : Int) (now : Nat) (q : SearchQuery),
        SearchQuery.fromCreate c uid now = Except.ok q → q.completed_at = none) ∧
    (∀ t : VideoEditTask, VideoEditTask.Reachable t →
      (t.completed_at ≠ none →
          t.status = VideoStatus.ready ∨ t.status = VideoStatus.error) ∧
      (t.status ≠ VideoStatus.ready ∧ t.status ≠ VideoStatus.error →
          t.completed_at = none)) ∧
    (∀ (c : VideoEditTaskCreate) (pid : Int) (now : Nat) (t : VideoEditTask),
        VideoEditTask.fromCreate c pid now = Except.ok t → t.completed_at = none) := by
  refine ⟨?_, searchQueryCreate_completed_at, ?_, videoTaskCreate_completed_at⟩
  · intro q h
    refine ⟨searchQueryReachable_terminal q h, ?_⟩
    intro hst
    by_cases hc : q.completed_at = none
    · exact hc
    · rcases searchQueryReachable_terminal q h hc with h1 | h1
      · exact absurd h1 hst.1
      · exact absurd h1 hst.2
  · intro t h
    refine ⟨videoTaskReachable_terminal t h, ?_⟩
    intro hst
    by_cases hc : t.completed_at = none
    · exact hc
    · rcases videoTaskReachable_terminal t h hc with h1 | h1
      · exact absurd h1 hst.1
      · exact absurd h1 hst.2

/-- Witness for C8: the freshly created samples carry no completed_at,
and after a non-terminal transition reachable states still carry
none. -/
theorem c8_completed_at_terminal_witness :
    sampleSearchQuery.completed_at = none ∧
    (SearchQuery.setStatus sampleSearchQuery SearchStatus.in_progress 5).completed_at = none ∧
    sampleTask.completed_at = none ∧
    (VideoEditTask.applyUpdate sampleTask sampleTaskUpdate 5).completed_at = none :=
  ⟨c8_completed_at_terminal.2.1 { query := "cats" } 1 0 sampleSearchQuery rfl,
   (c8_completed_at_terminal.1 _
      (SearchQuery.Reachable.step sampleSearchQuery SearchStatus.in_progress 5
        (SearchQuery.Reachable.base { query := "cats" } 1 0 sampleSearchQuery rfl))).2
     (by decide),
   c8_completed_at_terminal.2.2.2
     { edit_type := VideoEditType.trim, user_prompt := "cut" } 1 0 sampleTask rfl,
   (c8_completed_at_terminal.2.2.1 _
      (VideoEditTask.Reachable.step sampleTask sampleTaskUpdate 5
        (VideoEditTask.Reachable.base
          { edit_type := VideoEditType.trim, user_prompt := "cut" } 1 0 sampleTask rfl))).2
     (by decide)⟩

end AppModels
